import Mathlib

/-!
Verification development for the `Final-Case-HW` Flask analytics service
(`src/app.py`).  The Python program is shallowly embedded: the pandas
DataFrame becomes a structure of named columns over lists of cells, the
module-level cache becomes explicit state passing, exceptions become
`Except`, and the numeric computations (`np.polyfit` degree 1,
`np.corrcoef`) are carried out in exact rational arithmetic.
-/

set_option autoImplicit false

namespace CfbApp

/-- A single table cell.  pandas cells relevant to this program are either a
string (object dtype), a parsed number, or the missing value `NaN`. -/
inductive Cell where
  | str (s : String)
  | num (q : ℚ)
  | nan
deriving DecidableEq

/-- In-memory table: named columns plus an ordered sequence of rows
(each row is the list of its cells, positionally aligned with `cols`). -/
structure DataFrame where
  cols : List String
  rows : List (List Cell)
deriving DecidableEq

/-- Numeric value of one decimal digit. -/
def digitVal? (c : Char) : Option Nat :=
  if c.isDigit then some (c.toNat - 48) else none

/-- Value of a non-empty string of decimal digits; `none` when empty or when
any character is not a digit. -/
def digitsVal? : List Char → Option Nat
  | [] => none
  | cs => cs.foldlM (fun acc c => (digitVal? c).map (fun d => acc * 10 + d)) 0

/-- Exact-arithmetic model of the numeric parsing performed by
`pd.to_numeric`: an optional sign, an integer part, and an optional decimal
fraction.  Any string outside this decimal-literal form (e.g. `"N/A"`) is
unparseable and yields `none`. -/
def parseQ? (s : String) : Option ℚ :=
  let cs := s.toList
  let signed : Bool × List Char :=
    match cs with
    | '-' :: rest => (true, rest)
    | '+' :: rest => (false, rest)
    | _ => (false, cs)
  let neg := signed.1
  let body := signed.2
  let intPart := body.takeWhile (fun c => c != '.')
  let rest := body.dropWhile (fun c => c != '.')
  match rest with
  | [] => (digitsVal? intPart).map (fun n => if neg then -(n : ℚ) else (n : ℚ))
  | _ :: fracPart =>
    match digitsVal? intPart, digitsVal? fracPart with
    | some i, some f =>
      let q : ℚ := (i : ℚ) + (f : ℚ) / ((10 : ℚ) ^ fracPart.length)
      some (if neg then -q else q)
    | _, _ => none

/-- `pd.to_numeric(·, errors="coerce")` applied to one cell: numbers stay,
missing stays missing, a string is parsed and becomes `nan` when
unparseable (coercion never raises). -/
def toNumericCell : Cell → Cell
  | .num q => .num q
  | .nan => .nan
  | .str s =>
    match parseQ? s with
    | some q => .num q
    | none => .nan

/-- Python-side failures that the embedded code can raise.  `httpAbort`
models `flask.abort(status, description=...)`; the description of
`require_columns` is determined by the carried list of missing names. -/
inductive PyErr where
  | nameError (n : String)
  | keyError (k : String)
  | fileNotFound (p : String)
  | httpAbort (status : Nat) (missing : List String)
deriving DecidableEq

/-- Index of the (first) column with the given name, `none` when absent. -/
def colIdx? (c : String) : List String → Option Nat
  | [] => none
  | x :: xs => if x = c then some 0 else (colIdx? c xs).map (· + 1)

/-- Column index inside a DataFrame (`df.columns.get_loc`-style lookup). -/
def DataFrame.colIdx (df : DataFrame) (c : String) : Option Nat :=
  colIdx? c df.cols

/-- Cell of a row at a column position (rows are positionally aligned). -/
def cellAt (r : List Cell) (i : Nat) : Cell := r.getD i Cell.nan

/-- The cells of column `c`, top to bottom; `[]` when the column is absent. -/
def DataFrame.colVals (df : DataFrame) (c : String) : List Cell :=
  match df.colIdx c with
  | some i => df.rows.map (fun r => cellAt r i)
  | none => []

/-- `src/app.py` lines 32-42.  The module-level cache `_df_cache` is passed
and returned explicitly; `fs` maps a path to the parsed content of the CSV
file at that path (`none` = the path does not exist).  On a cache hit the
file system is not consulted at all; on a miss, a missing file raises
`FileNotFoundError` and leaves the cache slot unchanged (`none`). -/
def get_data (fs : String → Option DataFrame) (dataPath : String)
    (cache : Option DataFrame) : Except PyErr DataFrame × Option DataFrame :=
  match cache with
  | some df => (.ok df, some df)
  | none =>
    match fs dataPath with
    | none => (.error (.fileNotFound dataPath), none)
    | some df => (.ok df, some df)

/-- `src/app.py` lines 46-49: `missing = [c for c in cols if c not in
df.columns]`, and a 400 abort carrying the missing names when the list is
non-empty. -/
def require_columns (df : DataFrame) (cols : List String) : Except PyErr Unit :=
  let missing := cols.filter (fun c => decide (c ∉ df.cols))
  match missing with
  | [] => .ok ()
  | _ => .error (.httpAbort 400 missing)

/-- `df[c] = pd.to_numeric(df[c], errors="coerce")` (`src/app.py` lines
85-86): the right-hand side first reads `df[c]`, which raises `KeyError`
when the column is absent; otherwise the coerced values are assigned back
into column `c` of the same dataframe object (an in-place mutation). -/
def coerceNumericColumn (df : DataFrame) (c : String) : Except PyErr DataFrame :=
  match df.colIdx c with
  | none => .error (.keyError c)
  | some i =>
    .ok { df with rows := df.rows.map (fun r => r.set i (toNumericCell (cellAt r i))) }

/-- Whether row `r` has a non-missing value in column `c` of `df`. -/
def rowHasValue (df : DataFrame) (r : List Cell) (c : String) : Bool :=
  match df.colIdx c with
  | some i => cellAt r i != Cell.nan
  | none => false

/-- `df.dropna(subset=...)` (`src/app.py` line 88): returns a new frame
keeping, in order, exactly the rows with no missing value in any of the
`subset` columns; a missing subset column raises `KeyError`. -/
def dropnaSubset (df : DataFrame) (subset : List String) : Except PyErr DataFrame :=
  if subset.all (fun c => (df.colIdx c).isSome) then
    .ok { df with rows := df.rows.filter (fun r => subset.all (fun c => rowHasValue df r c)) }
  else
    .error (.keyError "dropna subset")

/-- Numbers stored in a list of cells (after coercion and `dropna` every
cell of the paired columns is a `num`, so this is the `.values` array). -/
def numsOf (cells : List Cell) : List ℚ :=
  cells.filterMap (fun c => match c with | .num q => some q | _ => none)

/-- `x_data` zipped with `y_data` (`src/app.py` lines 101-102): the paired
per-row samples, `x` from column "Points Per Game", `y` from column
"Pass Touchdowns". -/
def cleanedXY (plotDf : DataFrame) : List (ℚ × ℚ) :=
  (numsOf (plotDf.colVals "Points Per Game")).zip
    (numsOf (plotDf.colVals "Pass Touchdowns"))

/-- Sum of the x components of paired samples. -/
def sumX (l : List (ℚ × ℚ)) : ℚ := (l.map Prod.fst).sum

/-- Sum of the y components. -/
def sumY (l : List (ℚ × ℚ)) : ℚ := (l.map Prod.snd).sum

/-- Sum of the products `x*y`. -/
def sumXY (l : List (ℚ × ℚ)) : ℚ := (l.map (fun p => p.1 * p.2)).sum

/-- Sum of the squares `x^2`. -/
def sumX2 (l : List (ℚ × ℚ)) : ℚ := (l.map (fun p => p.1 ^ 2)).sum

/-- Sum of the squares `y^2`. -/
def sumY2 (l : List (ℚ × ℚ)) : ℚ := (l.map (fun p => p.2 ^ 2)).sum

/-- Number of samples, as a rational. -/
def nQ (l : List (ℚ × ℚ)) : ℚ := (l.length : ℚ)

/-- Mean of the x components. -/
def meanX (l : List (ℚ × ℚ)) : ℚ := sumX l / nQ l

/-- Mean of the y components. -/
def meanY (l : List (ℚ × ℚ)) : ℚ := sumY l / nQ l

/-- Exact value of the leading coefficient returned by
`np.polyfit(x_data, y_data, 1)` (`src/app.py` line 104) in the
non-degenerate case: the closed-form least-squares slope. -/
def polyfitSlope (l : List (ℚ × ℚ)) : ℚ :=
  (nQ l * sumXY l - sumX l * sumY l) / (nQ l * sumX2 l - (sumX l) ^ 2)

/-- Exact value of the constant coefficient of the same fit. -/
def polyfitIntercept (l : List (ℚ × ℚ)) : ℚ :=
  (sumY l - polyfitSlope l * sumX l) / nQ l

/-- Centered cross moment `Σ (x - x̄)(y - ȳ)`, the covariance numerator
used by `np.corrcoef`. -/
def covXY (l : List (ℚ × ℚ)) : ℚ :=
  (l.map (fun p => (p.1 - meanX l) * (p.2 - meanY l))).sum

/-- Centered second moment `Σ (x - x̄)^2`. -/
def varX (l : List (ℚ × ℚ)) : ℚ :=
  (l.map (fun p => (p.1 - meanX l) ^ 2)).sum

/-- Centered second moment `Σ (y - ȳ)^2`. -/
def varY (l : List (ℚ × ℚ)) : ℚ :=
  (l.map (fun p => (p.2 - meanY l) ^ 2)).sum

/-- The statistics computed at `src/app.py` lines 104-107.  The reported
correlation `np.corrcoef(x, y)[0, 1]` equals `corrNum / √corrDenSq`; the
pair `(corrNum, corrDenSq)` determines that real number exactly while
staying inside rational arithmetic. -/
structure FitResult where
  slope : ℚ
  intercept : ℚ
  corrNum : ℚ
  corrDenSq : ℚ
deriving DecidableEq

/-- Fit statistics of the cleaned paired samples. -/
def fitStats (l : List (ℚ × ℚ)) : FitResult :=
  { slope := polyfitSlope l
    intercept := polyfitIntercept l
    corrNum := covXY l
    corrDenSq := varX l * varY l }

/-- Observable outcome of calling a plot helper on a dataframe object:
the state of the caller-visible dataframe after the call (Python column
assignment mutates in place, and mutations survive a later exception) and
the returned value or raised exception. -/
structure CallOutcome where
  dfAfter : DataFrame
  result : Except PyErr FitResult

/-- `src/app.py` lines 84-115, `plot_ppg_vs_pass_tds`.  Lines 85-86 coerce
the two columns in place; line 88 builds `plot_df`; lines 101-107 compute
slope, intercept and correlation; lines 90-114 only print and draw
(`plt.show()` is a no-op on the Agg backend and nothing is saved); line
115 is `return buf`, and `buf` is bound nowhere in the function or the
module, so the call always ends by raising `NameError: buf` (after the
in-place mutations have already happened). -/
def plot_ppg_vs_pass_tds (df : DataFrame) : CallOutcome :=
  match coerceNumericColumn df "Points Per Game" with
  | .error e => { dfAfter := df, result := .error e }
  | .ok df1 =>
    match coerceNumericColumn df1 "Pass Touchdowns" with
    | .error e => { dfAfter := df1, result := .error e }
    | .ok df2 =>
      match dropnaSubset df2 ["Points Per Game", "Pass Touchdowns"] with
      | .error e => { dfAfter := df2, result := .error e }
      | .ok plotDf =>
        let _fit := fitStats (cleanedXY plotDf)
        { dfAfter := df2, result := .error (.nameError "buf") }

/-- The mutation-and-filter stage of the pair analysis (`src/app.py` lines
85-88): on success, the pair of the mutated dataframe and `plot_df`. -/
def coerceAndClean (df : DataFrame) : Except PyErr (DataFrame × DataFrame) := do
  let df1 ← coerceNumericColumn df "Points Per Game"
  let df2 ← coerceNumericColumn df1 "Pass Touchdowns"
  let plotDf ← dropnaSubset df2 ["Points Per Game", "Pass Touchdowns"]
  .ok (df2, plotDf)

/-- The fit statistics the pair analysis computes (`src/app.py` lines
101-107), as a function of the incoming dataframe. -/
def analysisOf (df : DataFrame) : Except PyErr FitResult := do
  let (_, plotDf) ← coerceAndClean df
  .ok (fitStats (cleanedXY plotDf))

/-- An HTTP response as Flask delivers it. -/
structure HttpResponse where
  status : Nat
  mimetype : String
  body : String
deriving DecidableEq

/-- The names bound at module level in `src/app.py`: imports, the app
object, configuration, the cache slot, and the defined functions.  Neither
`df` nor `buf` is ever assigned at module level. -/
def moduleGlobals : List String :=
  ["io", "os", "tempfile", "Flask", "jsonify", "send_file", "abort",
   "_mpl_dir", "matplotlib", "plt", "pd", "np", "sns",
   "app", "DATA_PATH", "_df_cache",
   "get_data", "require_columns", "_scatter_ppg_vs",
   "plot_ppg_vs_pass_tds", "plot_ppg_vs_rush_tds",
   "plot_ppg_vs_total_yds", "plot_ppg_vs_turnovers",
   "stats", "ppg_vs_pass_tds_endpoint", "ppg_vs_rush_tds_endpoint",
   "ppg_vs_total_yds_endpoint", "ppg_vs_turnovers_endpoint", "health"]

/-- The value bound to the global name `df`, if any.  The module never
assigns `df` (it is not in `moduleGlobals`), so this is `none`: the
endpoint bodies that read `df` raise `NameError`. -/
def globalDf : Option DataFrame := none

/-- `src/app.py` lines 271-306, `ppg_vs_pass_tds_endpoint`.  The handler
takes no argument and never calls `get_data`; its body is a verbatim copy
of the body of `plot_ppg_vs_pass_tds` operating on the name `df`, which is
neither a parameter, nor a local, nor a module global, so its very first
expression `df["Points Per Game"]` (line 276) raises `NameError: df`.
Even if `df` were bound, line 306 `return buf` would raise
`NameError: buf`.  The `cache` parameter is the process's `_df_cache`
state; the handler never reads it. -/
def ppg_vs_pass_tds_endpoint (_cache : Option DataFrame) :
    Except PyErr HttpResponse :=
  match globalDf with
  | none => .error (.nameError "df")
  | some df =>
    match (plot_ppg_vs_pass_tds df).result with
    | .error e => .error e
    | .ok _fit => .error (.nameError "buf")

/-- Flask's conversion of a handler outcome into an HTTP response: a
returned response passes through, an `abort(400, ...)` becomes a 400
response whose body carries the description (which lists the missing
columns), and any other uncaught exception becomes a plain
`500 Internal Server Error` page. -/
def flaskDispatch (r : Except PyErr HttpResponse) : HttpResponse :=
  match r with
  | .ok resp => resp
  | .error (.httpAbort s missing) =>
    { status := s, mimetype := "text/html"
      body := "Missing required column(s) in dataset: " ++ String.intercalate ", " missing }
  | .error _ =>
    { status := 500, mimetype := "text/html", body := "Internal Server Error" }

/-- Numerator of the Pearson correlation coefficient in raw-moment form,
`n·Σxy - Σx·Σy`, following the spec's wording "Pearson correlation
coefficient between the two cleaned series"; the coefficient itself is
`pearsonNum / √pearsonDenSq`. -/
def pearsonNum (l : List (ℚ × ℚ)) : ℚ := nQ l * sumXY l - sumX l * sumY l

/-- Squared denominator of the Pearson coefficient in raw-moment form,
`(n·Σx² - (Σx)²) · (n·Σy² - (Σy)²)`. -/
def pearsonDenSq (l : List (ℚ × ℚ)) : ℚ :=
  (nQ l * sumX2 l - (sumX l) ^ 2) * (nQ l * sumY2 l - (sumY l) ^ 2)

/-- Slope the pair analysis actually reports, as a function of the incoming
dataframe (`none` when the pipeline raises). -/
def slopeOf (df : DataFrame) : Option ℚ :=
  (analysisOf df).toOption.map (fun f => f.slope)

/-- Slope the claim asserts: the degree-1 least-squares slope fitted with
X = the candidate column ("Pass Touchdowns") and Y = "Points Per Game",
i.e. the fit computed on the swapped cleaned pairs.  Stated from the
claim's words, for comparison with `slopeOf`. -/
def claimedSlopeOf (df : DataFrame) : Option ℚ :=
  ((coerceAndClean df).toOption).map
    (fun p => polyfitSlope ((cleanedXY p.2).map Prod.swap))

/-! ### Basic lemmas about `require_columns` -/

theorem require_columns_of_none_missing {df : DataFrame} {cols : List String}
    (h : cols.filter (fun c => decide (c ∉ df.cols)) = []) :
    require_columns df cols = .ok () := by
  show (match cols.filter (fun c => decide (c ∉ df.cols)) with
        | [] => (Except.ok () : Except PyErr Unit)
        | _ => .error (.httpAbort 400 (cols.filter (fun c => decide (c ∉ df.cols))))) = .ok ()
  rw [h]

theorem require_columns_of_missing {df : DataFrame} {cols : List String}
    {x : String} {t : List String}
    (h : cols.filter (fun c => decide (c ∉ df.cols)) = x :: t) :
    require_columns df cols = .error (.httpAbort 400 (x :: t)) := by
  show (match cols.filter (fun c => decide (c ∉ df.cols)) with
        | [] => (Except.ok () : Except PyErr Unit)
        | _ => .error (.httpAbort 400 (cols.filter (fun c => decide (c ∉ df.cols))))) = _
  rw [h]

/-- C4: `require(D, C)` succeeds iff every name in `C` is a column of `D`;
otherwise it aborts with status 400 reporting exactly the names of `C`
absent from `D`'s columns — membership in the reported list is equivalent
to being in `C` and absent from `D`. -/
theorem require_columns_spec (df : DataFrame) (cols : List String) :
    (require_columns df cols = .ok () ↔ ∀ c ∈ cols, c ∈ df.cols) ∧
    (require_columns df cols = .ok () ∨
      require_columns df cols =
        .error (.httpAbort 400 (cols.filter (fun c => decide (c ∉ df.cols))))) ∧
    (∀ c, c ∈ cols.filter (fun c => decide (c ∉ df.cols)) ↔ c ∈ cols ∧ c ∉ df.cols) := by
  refine ⟨?_, ?_, ?_⟩
  · constructor
    · intro hok c hc
      by_contra habs
      rcases hmiss : cols.filter (fun c => decide (c ∉ df.cols)) with _ | ⟨x, t⟩
      · exact habs ((by simpa using List.filter_eq_nil_iff.mp hmiss c hc))
      · rw [require_columns_of_missing hmiss] at hok
        exact Except.noConfusion hok
    · intro hall
      exact require_columns_of_none_missing
        (List.filter_eq_nil_iff.mpr (fun c hc => by simpa using hall c hc))
  · rcases hmiss : cols.filter (fun c => decide (c ∉ df.cols)) with _ | ⟨x, t⟩
    · exact Or.inl (require_columns_of_none_missing hmiss)
    · exact Or.inr (require_columns_of_missing hmiss)
  · intro c
    simp [List.mem_filter]

/-- C4 witness: a concrete dataset missing exactly one of two required
columns; `require_columns` reports exactly that one. -/
theorem require_columns_spec_witness :
    (require_columns ⟨["Points Per Game", "Team"], []⟩
        ["Points Per Game", "Pass Touchdowns"] = .ok ()
      ↔ ∀ c ∈ ["Points Per Game", "Pass Touchdowns"],
          c ∈ (⟨["Points Per Game", "Team"], []⟩ : DataFrame).cols) ∧
    (require_columns ⟨["Points Per Game", "Team"], []⟩
        ["Points Per Game", "Pass Touchdowns"] = .ok () ∨
      require_columns ⟨["Points Per Game", "Team"], []⟩
          ["Points Per Game", "Pass Touchdowns"] =
        .error (.httpAbort 400
          (["Points Per Game", "Pass Touchdowns"].filter
            (fun c => decide (c ∉ (⟨["Points Per Game", "Team"], []⟩ : DataFrame).cols))))) ∧
    (∀ c, c ∈ ["Points Per Game", "Pass Touchdowns"].filter
          (fun c => decide (c ∉ (⟨["Points Per Game", "Team"], []⟩ : DataFrame).cols))
        ↔ c ∈ ["Points Per Game", "Pass Touchdowns"]
            ∧ c ∉ (⟨["Points Per Game", "Team"], []⟩ : DataFrame).cols) :=
  require_columns_spec ⟨["Points Per Game", "Team"], []⟩
    ["Points Per Game", "Pass Touchdowns"]

/-! ### Endpoint behaviour (claims about the HTTP surface) -/

/-- C1: on a process whose cached dataset has both "Points Per Game" and
"Pass Touchdowns" with at least two rows, a GET of `/api/ppg-vs-pass-tds`
does NOT return 200 with a PNG: the handler's first expression reads the
unbound name `df`, so the request ends as a 500 Internal Server Error with
an HTML body.  This contradicts the claim (and the repo's own test
`test_ppg_vs_pass_tds_endpoint`), which expect 200 and `image/png`. -/
theorem ppg_endpoint_scenarioA_is_500 (df : DataFrame)
    (h1 : "Points Per Game" ∈ df.cols) (h2 : "Pass Touchdowns" ∈ df.cols)
    (h3 : 2 ≤ df.rows.length) :
    flaskDispatch (ppg_vs_pass_tds_endpoint (some df)) =
      ⟨500, "text/html", "Internal Server Error"⟩ ∧
    (flaskDispatch (ppg_vs_pass_tds_endpoint (some df))).status ≠ 200 ∧
    (flaskDispatch (ppg_vs_pass_tds_endpoint (some df))).mimetype ≠ "image/png" := by
  have hr : flaskDispatch (ppg_vs_pass_tds_endpoint (some df)) =
      ⟨500, "text/html", "Internal Server Error"⟩ := rfl
  refine ⟨hr, ?_, ?_⟩
  · rw [hr]; decide
  · rw [hr]; decide

/-- C1 witness: the Scenario A dataset (two numeric rows) satisfies the
hypotheses, and the endpoint still produces the 500 error page. -/
theorem ppg_endpoint_scenarioA_is_500_witness :
    ("Points Per Game" ∈ (⟨["Points Per Game", "Pass Touchdowns"],
        [[.num 30, .num 20], [.num 25, .num 15]]⟩ : DataFrame).cols) ∧
    ("Pass Touchdowns" ∈ (⟨["Points Per Game", "Pass Touchdowns"],
        [[.num 30, .num 20], [.num 25, .num 15]]⟩ : DataFrame).cols) ∧
    (2 ≤ (⟨["Points Per Game", "Pass Touchdowns"],
        [[.num 30, .num 20], [.num 25, .num 15]]⟩ : DataFrame).rows.length) ∧
    (flaskDispatch (ppg_vs_pass_tds_endpoint (some
        ⟨["Points Per Game", "Pass Touchdowns"],
          [[.num 30, .num 20], [.num 25, .num 15]]⟩)) =
      ⟨500, "text/html", "Internal Server Error"⟩ ∧
     (flaskDispatch (ppg_vs_pass_tds_endpoint (some
        ⟨["Points Per Game", "Pass Touchdowns"],
          [[.num 30, .num 20], [.num 25, .num 15]]⟩))).status ≠ 200 ∧
     (flaskDispatch (ppg_vs_pass_tds_endpoint (some
        ⟨["Points Per Game", "Pass Touchdowns"],
          [[.num 30, .num 20], [.num 25, .num 15]]⟩))).mimetype ≠ "image/png") :=
  ⟨by decide, by decide, by decide,
   ppg_endpoint_scenarioA_is_500 _ (by decide) (by decide) (by decide)⟩

/-- C2: on a process whose dataset lacks "Points Per Game", the endpoint
does NOT return a 400 naming the column: the unbound-name `NameError` is
raised before `require_columns` could ever run (no endpoint calls it), so
the response is the generic 500 page, whose body does not mention
"Points Per Game". -/
theorem ppg_endpoint_missing_column_is_500 (df : DataFrame)
    (h : "Points Per Game" ∉ df.cols) :
    flaskDispatch (ppg_vs_pass_tds_endpoint (some df)) =
      ⟨500, "text/html", "Internal Server Error"⟩ ∧
    (flaskDispatch (ppg_vs_pass_tds_endpoint (some df))).status ≠ 400 ∧
    (flaskDispatch (ppg_vs_pass_tds_endpoint (some df))).body =
      "Internal Server Error" := by
  have hr : flaskDispatch (ppg_vs_pass_tds_endpoint (some df)) =
      ⟨500, "text/html", "Internal Server Error"⟩ := rfl
  refine ⟨hr, ?_, rfl⟩
  rw [hr]; decide

/-- C2 witness: a concrete dataset without "Points Per Game". -/
theorem ppg_endpoint_missing_column_is_500_witness :
    ("Points Per Game" ∉ (⟨["Team", "Wins"], [[.str "A", .num 10]]⟩ : DataFrame).cols) ∧
    (flaskDispatch (ppg_vs_pass_tds_endpoint (some ⟨["Team", "Wins"], [[.str "A", .num 10]]⟩)) =
        ⟨500, "text/html", "Internal Server Error"⟩ ∧
      (flaskDispatch (ppg_vs_pass_tds_endpoint (some
          ⟨["Team", "Wins"], [[.str "A", .num 10]]⟩))).status ≠ 400 ∧
      (flaskDispatch (ppg_vs_pass_tds_endpoint (some
          ⟨["Team", "Wins"], [[.str "A", .num 10]]⟩))).body = "Internal Server Error") :=
  ⟨by decide, ppg_endpoint_missing_column_is_500 _ (by decide)⟩

/-! ### Cache behaviour of `get_data` -/

/-- C6: once a call to `get_data` has succeeded, any later call started
from the resulting cache state returns the very same dataframe and state,
whatever the file system then contains — the file is never re-read. -/
theorem get_data_second_call_cached (fs fs' : String → Option DataFrame)
    (path : String) (cache st' : Option DataFrame) (df : DataFrame)
    (h : get_data fs path cache = (.ok df, st')) :
    get_data fs' path st' = (.ok df, st') := by
  cases cache with
  | some d =>
    simp only [get_data, Prod.mk.injEq, Except.ok.injEq] at h
    rcases h with ⟨h1, h2⟩
    subst h1; subst h2
    rfl
  | none =>
    cases hfs : fs path with
    | none => simp [get_data, hfs] at h
    | some d =>
      simp only [get_data, hfs, Prod.mk.injEq, Except.ok.injEq] at h
      rcases h with ⟨h1, h2⟩
      subst h1; subst h2
      rfl

/-- C6 witness: load from a file system holding a one-row table, then call
again after the file has been replaced by a different table; the second
call still yields the originally loaded table. -/
theorem get_data_second_call_cached_witness :
    get_data (fun _ => some ⟨["Mutated"], []⟩) "cfb23.csv"
        (some ⟨["Team"], [[.num 1]]⟩) =
      (.ok ⟨["Team"], [[.num 1]]⟩, some ⟨["Team"], [[.num 1]]⟩) :=
  get_data_second_call_cached
    (fun p => if p = "cfb23.csv" then some ⟨["Team"], [[.num 1]]⟩ else none)
    (fun _ => some ⟨["Mutated"], []⟩) "cfb23.csv" none
    (some ⟨["Team"], [[.num 1]]⟩) ⟨["Team"], [[.num 1]]⟩ rfl

/-- C10: a first load that fails because the path does not exist raises
`FileNotFoundError` and leaves the cache slot empty, so a later call made
once the file exists re-attempts the read and succeeds; no partial dataset
is ever cached by a failed load. -/
theorem get_data_failed_load_leaves_cache_empty
    (fs fs' : String → Option DataFrame) (path : String) (df : DataFrame)
    (h1 : fs path = none) (h2 : fs' path = some df) :
    get_data fs path none = (.error (.fileNotFound path), none) ∧
    get_data fs' path none = (.ok df, some df) := by
  constructor
  · simp [get_data, h1]
  · simp [get_data, h2]

/-- C10 witness: concrete file systems before and after the file appears. -/
theorem get_data_failed_load_leaves_cache_empty_witness :
    get_data (fun _ => none) "cfb23.csv" none =
      (.error (.fileNotFound "cfb23.csv"), none) ∧
    get_data (fun _ => some ⟨["Team"], [[.num 1]]⟩) "cfb23.csv" none =
      (.ok ⟨["Team"], [[.num 1]]⟩, some ⟨["Team"], [[.num 1]]⟩) :=
  get_data_failed_load_leaves_cache_empty
    (fun _ => none) (fun _ => some ⟨["Team"], [[.num 1]]⟩) "cfb23.csv"
    ⟨["Team"], [[.num 1]]⟩ rfl rfl

/-! ### Summation toolkit for the regression and correlation statistics -/

theorem sumX_cons (p : ℚ × ℚ) (t : List (ℚ × ℚ)) : sumX (p :: t) = p.1 + sumX t := by
  simp [sumX]

theorem sumY_cons (p : ℚ × ℚ) (t : List (ℚ × ℚ)) : sumY (p :: t) = p.2 + sumY t := by
  simp [sumY]

theorem sumXY_cons (p : ℚ × ℚ) (t : List (ℚ × ℚ)) :
    sumXY (p :: t) = p.1 * p.2 + sumXY t := by
  simp [sumXY]

theorem sumX2_cons (p : ℚ × ℚ) (t : List (ℚ × ℚ)) :
    sumX2 (p :: t) = p.1 ^ 2 + sumX2 t := by
  simp [sumX2]

theorem sumY2_cons (p : ℚ × ℚ) (t : List (ℚ × ℚ)) :
    sumY2 (p :: t) = p.2 ^ 2 + sumY2 t := by
  simp [sumY2]

theorem nQ_cons (p : ℚ × ℚ) (t : List (ℚ × ℚ)) : nQ (p :: t) = nQ t + 1 := by
  simp [nQ]

/-- Sum of the residuals of an arbitrary line `y = a·x + b`. -/
theorem sum_residual (l : List (ℚ × ℚ)) (a b : ℚ) :
    (l.map (fun p => p.2 - (a * p.1 + b))).sum = sumY l - a * sumX l - nQ l * b := by
  induction l with
  | nil => simp [sumX, sumY, nQ]
  | cons p t ih =>
    simp only [List.map_cons, List.sum_cons, ih, sumX_cons, sumY_cons, nQ_cons]
    ring

/-- Sum of the `x`-weighted residuals of an arbitrary line `y = a·x + b`. -/
theorem sum_xresidual (l : List (ℚ × ℚ)) (a b : ℚ) :
    (l.map (fun p => p.1 * (p.2 - (a * p.1 + b)))).sum =
      sumXY l - a * sumX2 l - b * sumX l := by
  induction l with
  | nil => simp [sumXY, sumX2, sumX]
  | cons p t ih =>
    simp only [List.map_cons, List.sum_cons, ih, sumXY_cons, sumX2_cons, sumX_cons]
    ring

/-- Expansion of a sum of centered cross products around arbitrary centers. -/
theorem sum_centered_cross (l : List (ℚ × ℚ)) (c d : ℚ) :
    (l.map (fun p => (p.1 - c) * (p.2 - d))).sum =
      sumXY l - c * sumY l - d * sumX l + nQ l * (c * d) := by
  induction l with
  | nil => simp [sumXY, sumY, sumX, nQ]
  | cons p t ih =>
    simp only [List.map_cons, List.sum_cons, ih, sumXY_cons, sumY_cons, sumX_cons, nQ_cons]
    ring

/-- Expansion of a sum of centered squares of the x components. -/
theorem sum_centered_sqX (l : List (ℚ × ℚ)) (c : ℚ) :
    (l.map (fun p => (p.1 - c) ^ 2)).sum =
      sumX2 l - 2 * c * sumX l + nQ l * c ^ 2 := by
  induction l with
  | nil => simp [sumX2, sumX, nQ]
  | cons p t ih =>
    simp only [List.map_cons, List.sum_cons, ih, sumX2_cons, sumX_cons, nQ_cons]
    ring

/-- Expansion of a sum of centered squares of the y components. -/
theorem sum_centered_sqY (l : List (ℚ × ℚ)) (c : ℚ) :
    (l.map (fun p => (p.2 - c) ^ 2)).sum =
      sumY2 l - 2 * c * sumY l + nQ l * c ^ 2 := by
  induction l with
  | nil => simp [sumY2, sumY, nQ]
  | cons p t ih =>
    simp only [List.map_cons, List.sum_cons, ih, sumY2_cons, sumY_cons, nQ_cons]
    ring

/-- The centered covariance numerator in raw moments: `n·covXY = n·Σxy - Σx·Σy`. -/
theorem covXY_raw (l : List (ℚ × ℚ)) (hn : nQ l ≠ 0) :
    nQ l * covXY l = nQ l * sumXY l - sumX l * sumY l := by
  unfold covXY
  rw [sum_centered_cross l (meanX l) (meanY l)]
  unfold meanX meanY
  field_simp
  ring

/-- The centered x variance numerator in raw moments. -/
theorem varX_raw (l : List (ℚ × ℚ)) (hn : nQ l ≠ 0) :
    nQ l * varX l = nQ l * sumX2 l - (sumX l) ^ 2 := by
  unfold varX
  rw [sum_centered_sqX l (meanX l)]
  unfold meanX
  field_simp
  ring

/-- The centered y variance numerator in raw moments. -/
theorem varY_raw (l : List (ℚ × ℚ)) (hn : nQ l ≠ 0) :
    nQ l * varY l = nQ l * sumY2 l - (sumY l) ^ 2 := by
  unfold varY
  rw [sum_centered_sqY l (meanY l)]
  unfold meanY
  field_simp
  ring

theorem nQ_pos_of_two_le {l : List (ℚ × ℚ)} (h : 2 ≤ l.length) : 0 < nQ l := by
  unfold nQ
  exact_mod_cast Nat.lt_of_lt_of_le (by norm_num) h

/-! ### Swapping the two series (Pearson symmetry) -/

theorem sumX_swap (l : List (ℚ × ℚ)) : sumX (l.map Prod.swap) = sumY l := by
  simp [sumX, sumY, List.map_map, Function.comp_def]

theorem sumY_swap (l : List (ℚ × ℚ)) : sumY (l.map Prod.swap) = sumX l := by
  simp [sumX, sumY, List.map_map, Function.comp_def]

theorem nQ_swap (l : List (ℚ × ℚ)) : nQ (l.map Prod.swap) = nQ l := by
  simp [nQ]

theorem meanX_swap (l : List (ℚ × ℚ)) : meanX (l.map Prod.swap) = meanY l := by
  unfold meanX meanY
  rw [sumX_swap, nQ_swap]

theorem meanY_swap (l : List (ℚ × ℚ)) : meanY (l.map Prod.swap) = meanX l := by
  unfold meanX meanY
  rw [sumY_swap, nQ_swap]

theorem covXY_swap (l : List (ℚ × ℚ)) : covXY (l.map Prod.swap) = covXY l := by
  unfold covXY
  rw [meanX_swap, meanY_swap, List.map_map]
  have hfun : ((fun p : ℚ × ℚ => (p.1 - meanY l) * (p.2 - meanX l)) ∘ Prod.swap) =
      (fun p : ℚ × ℚ => (p.1 - meanX l) * (p.2 - meanY l)) := by
    funext p
    simp [Function.comp_def]
    ring
  rw [hfun]

theorem varX_swap (l : List (ℚ × ℚ)) : varX (l.map Prod.swap) = varY l := by
  unfold varX varY
  rw [meanX_swap, List.map_map]
  have hfun : ((fun p : ℚ × ℚ => (p.1 - meanY l) ^ 2) ∘ Prod.swap) =
      (fun p : ℚ × ℚ => (p.2 - meanY l) ^ 2) := by
    funext p
    simp [Function.comp_def]
  rw [hfun]

theorem varY_swap (l : List (ℚ × ℚ)) : varY (l.map Prod.swap) = varX l := by
  unfold varX varY
  rw [meanY_swap, List.map_map]
  have hfun : ((fun p : ℚ × ℚ => (p.2 - meanX l) ^ 2) ∘ Prod.swap) =
      (fun p : ℚ × ℚ => (p.1 - meanX l) ^ 2) := by
    funext p
    simp [Function.comp_def]
  rw [hfun]

/-! ### Key algebraic facts about the fit -/

theorem polyfitSlope_mul_den (l : List (ℚ × ℚ))
    (hvar : nQ l * sumX2 l - (sumX l) ^ 2 ≠ 0) :
    polyfitSlope l * (nQ l * sumX2 l - (sumX l) ^ 2) =
      nQ l * sumXY l - sumX l * sumY l := by
  unfold polyfitSlope
  exact div_mul_cancel₀ _ hvar

theorem polyfitIntercept_mul_n (l : List (ℚ × ℚ)) (hn : nQ l ≠ 0) :
    nQ l * polyfitIntercept l = sumY l - polyfitSlope l * sumX l := by
  unfold polyfitIntercept
  field_simp

/-- C9: for paired cleaned series of length at least 2 with nonzero x
variance, the fitted line passes through the mean point
(`mean(Y) = slope·mean(X) + intercept`, exactly in rational arithmetic,
hence within any floating-point tolerance), and the reported correlation
`corrNum / √corrDenSq` equals the Pearson coefficient
`pearsonNum / √pearsonDenSq` of the series: the numerators and squared
denominators agree up to the positive factors `n` and `n²`. -/
theorem fit_mean_point_and_pearson (l : List (ℚ × ℚ))
    (hlen : 2 ≤ l.length)
    (hvar : nQ l * sumX2 l - (sumX l) ^ 2 ≠ 0) :
    meanY l = (fitStats l).slope * meanX l + (fitStats l).intercept ∧
    0 < nQ l ∧
    pearsonNum l = nQ l * (fitStats l).corrNum ∧
    pearsonDenSq l = (nQ l) ^ 2 * (fitStats l).corrDenSq := by
  have hn : nQ l ≠ 0 := ne_of_gt (nQ_pos_of_two_le hlen)
  refine ⟨?_, nQ_pos_of_two_le hlen, ?_, ?_⟩
  · show meanY l = polyfitSlope l * meanX l + polyfitIntercept l
    unfold polyfitIntercept meanX meanY
    field_simp
  · show pearsonNum l = nQ l * covXY l
    rw [covXY_raw l hn]
    rfl
  · show pearsonDenSq l = (nQ l) ^ 2 * (varX l * varY l)
    have hx := varX_raw l hn
    have hy := varY_raw l hn
    unfold pearsonDenSq
    rw [← hx, ← hy]
    ring

/-- C9 witness: the series (0,0), (1,1), (2,4). -/
theorem fit_mean_point_and_pearson_witness :
    (2 ≤ ([((0 : ℚ), (0 : ℚ)), (1, 1), (2, 4)] : List (ℚ × ℚ)).length) ∧
    (nQ [((0 : ℚ), (0 : ℚ)), (1, 1), (2, 4)] * sumX2 [((0 : ℚ), (0 : ℚ)), (1, 1), (2, 4)]
      - (sumX [((0 : ℚ), (0 : ℚ)), (1, 1), (2, 4)]) ^ 2 ≠ 0) ∧
    meanY [((0 : ℚ), (0 : ℚ)), (1, 1), (2, 4)] =
      (fitStats [((0 : ℚ), (0 : ℚ)), (1, 1), (2, 4)]).slope
          * meanX [((0 : ℚ), (0 : ℚ)), (1, 1), (2, 4)]
        + (fitStats [((0 : ℚ), (0 : ℚ)), (1, 1), (2, 4)]).intercept :=
  ⟨by decide, by with_unfolding_all decide,
   (fit_mean_point_and_pearson [((0 : ℚ), (0 : ℚ)), (1, 1), (2, 4)]
     (by decide) (by with_unfolding_all decide)).1⟩

/-- C3 counterexample: on the dataset with (PPG, PassTD) rows (0,0), (1,0),
(2,3), the analysis reports slope 3/2 — the fit of "Pass Touchdowns" on
"Points Per Game" — while the slope of the fit with X = "Pass Touchdowns"
and Y = "Points Per Game" asserted by the claim is 1/2. -/
theorem slope_orientation_counterexample :
    slopeOf ⟨["Points Per Game", "Pass Touchdowns"],
      [[.num 0, .num 0], [.num 1, .num 0], [.num 2, .num 3]]⟩ = some (3 / 2) ∧
    claimedSlopeOf ⟨["Points Per Game", "Pass Touchdowns"],
      [[.num 0, .num 0], [.num 1, .num 0], [.num 2, .num 3]]⟩ = some (1 / 2) ∧
    ((3 : ℚ) / 2 ≠ 1 / 2) :=
  ⟨by with_unfolding_all decide, by with_unfolding_all decide,
   by with_unfolding_all decide⟩

/-- C3 (amended): in every pair analysis, "Points Per Game" is the
independent variable X and the candidate column the dependent variable Y.
The reported slope and intercept are the (unique) degree-1 least-squares
coefficients of `y = slope·x + intercept` with X = "Points Per Game" and
Y = "Pass Touchdowns" — they satisfy both normal equations of that fit and
are the only pair doing so — and the reported correlation is the Pearson
coefficient of the two cleaned series, which is orientation-symmetric. -/
theorem analysis_fits_candidate_on_ppg (df df2 plotDf : DataFrame)
    (hcc : coerceAndClean df = .ok (df2, plotDf))
    (hn : nQ (cleanedXY plotDf) ≠ 0)
    (hvar : nQ (cleanedXY plotDf) * sumX2 (cleanedXY plotDf)
        - (sumX (cleanedXY plotDf)) ^ 2 ≠ 0) :
    analysisOf df = .ok (fitStats (cleanedXY plotDf)) ∧
    ((cleanedXY plotDf).map (fun p =>
        p.2 - ((fitStats (cleanedXY plotDf)).slope * p.1
          + (fitStats (cleanedXY plotDf)).intercept))).sum = 0 ∧
    ((cleanedXY plotDf).map (fun p =>
        p.1 * (p.2 - ((fitStats (cleanedXY plotDf)).slope * p.1
          + (fitStats (cleanedXY plotDf)).intercept)))).sum = 0 ∧
    (∀ a b : ℚ,
        ((cleanedXY plotDf).map (fun p => p.2 - (a * p.1 + b))).sum = 0 →
        ((cleanedXY plotDf).map (fun p => p.1 * (p.2 - (a * p.1 + b)))).sum = 0 →
        a = (fitStats (cleanedXY plotDf)).slope ∧
          b = (fitStats (cleanedXY plotDf)).intercept) ∧
    (fitStats (cleanedXY plotDf)).corrNum =
      covXY ((cleanedXY plotDf).map Prod.swap) ∧
    (fitStats (cleanedXY plotDf)).corrDenSq =
      varX ((cleanedXY plotDf).map Prod.swap)
        * varY ((cleanedXY plotDf).map Prod.swap) := by
  set l := cleanedXY plotDf with hl
  have hslope := polyfitSlope_mul_den l hvar
  have hint := polyfitIntercept_mul_n l hn
  refine ⟨?_, ?_, ?_, ?_, ?_, ?_⟩
  · unfold analysisOf
    rw [hcc]
    rfl
  · show (l.map (fun p => p.2 - (polyfitSlope l * p.1 + polyfitIntercept l))).sum = 0
    rw [sum_residual]
    linear_combination (-1 : ℚ) * hint
  · show (l.map (fun p =>
        p.1 * (p.2 - (polyfitSlope l * p.1 + polyfitIntercept l)))).sum = 0
    rw [sum_xresidual]
    have h2 : nQ l * (sumXY l - polyfitSlope l * sumX2 l
        - polyfitIntercept l * sumX l) = 0 := by
      linear_combination (-1 : ℚ) * hslope - sumX l * hint
    exact (mul_eq_zero.mp h2).resolve_left hn
  · intro a b h1 h2
    rw [sum_residual] at h1
    rw [sum_xresidual] at h2
    have ha : a * (nQ l * sumX2 l - (sumX l) ^ 2) =
        nQ l * sumXY l - sumX l * sumY l := by
      linear_combination (-(nQ l)) * h2 + sumX l * h1
    have ha' : a = polyfitSlope l := by
      unfold polyfitSlope
      exact (eq_div_iff hvar).mpr ha
    refine ⟨ha', ?_⟩
    have hb : b * nQ l = sumY l - polyfitSlope l * sumX l := by
      rw [← ha']
      linear_combination (-1 : ℚ) * h1
    show b = polyfitIntercept l
    unfold polyfitIntercept
    exact (eq_div_iff hn).mpr hb
  · show covXY l = covXY (l.map Prod.swap)
    exact (covXY_swap l).symm
  · show varX l * varY l = varX (l.map Prod.swap) * varY (l.map Prod.swap)
    rw [varX_swap, varY_swap]
    ring

/-- C3 (amended) witness: the Scenario A dataset, whose cleaned pairs are
(30,20), (25,15); the pipeline succeeds and the analysis is the fit
statistics of those pairs. -/
theorem analysis_fits_candidate_on_ppg_witness :
    (coerceAndClean ⟨["Points Per Game", "Pass Touchdowns"],
        [[.num 30, .num 20], [.num 25, .num 15]]⟩ =
      .ok (⟨["Points Per Game", "Pass Touchdowns"],
            [[.num 30, .num 20], [.num 25, .num 15]]⟩,
           ⟨["Points Per Game", "Pass Touchdowns"],
            [[.num 30, .num 20], [.num 25, .num 15]]⟩)) ∧
    (nQ (cleanedXY ⟨["Points Per Game", "Pass Touchdowns"],
        [[.num 30, .num 20], [.num 25, .num 15]]⟩) ≠ 0) ∧
    (nQ (cleanedXY ⟨["Points Per Game", "Pass Touchdowns"],
          [[.num 30, .num 20], [.num 25, .num 15]]⟩)
        * sumX2 (cleanedXY ⟨["Points Per Game", "Pass Touchdowns"],
          [[.num 30, .num 20], [.num 25, .num 15]]⟩)
      - (sumX (cleanedXY ⟨["Points Per Game", "Pass Touchdowns"],
          [[.num 30, .num 20], [.num 25, .num 15]]⟩)) ^ 2 ≠ 0) ∧
    analysisOf ⟨["Points Per Game", "Pass Touchdowns"],
        [[.num 30, .num 20], [.num 25, .num 15]]⟩ =
      .ok (fitStats (cleanedXY ⟨["Points Per Game", "Pass Touchdowns"],
        [[.num 30, .num 20], [.num 25, .num 15]]⟩)) :=
  ⟨by with_unfolding_all rfl, by with_unfolding_all decide,
   by with_unfolding_all decide,
   (analysis_fits_candidate_on_ppg
     ⟨["Points Per Game", "Pass Touchdowns"],
       [[.num 30, .num 20], [.num 25, .num 15]]⟩
     ⟨["Points Per Game", "Pass Touchdowns"],
       [[.num 30, .num 20], [.num 25, .num 15]]⟩
     ⟨["Points Per Game", "Pass Touchdowns"],
       [[.num 30, .num 20], [.num 25, .num 15]]⟩
     (by with_unfolding_all rfl) (by with_unfolding_all decide)
     (by with_unfolding_all decide)).1⟩

/-! ### Column lookup and cell-update lemmas -/

theorem colIdx?_of_mem {c : String} {l : List String} (h : c ∈ l) :
    ∃ i, colIdx? c l = some i := by
  induction l with
  | nil => cases h
  | cons x xs ih =>
    by_cases hx : x = c
    · exact ⟨0, by simp [colIdx?, hx]⟩
    · have hxs : c ∈ xs := by
        rcases List.mem_cons.mp h with h' | h'
        · exact absurd h'.symm hx
        · exact h'
      obtain ⟨i, hi⟩ := ih hxs
      exact ⟨i + 1, by simp [colIdx?, hx, hi]⟩

theorem colIdx?_getElem? {c : String} :
    ∀ {l : List String} {i : Nat}, colIdx? c l = some i → l[i]? = some c := by
  intro l
  induction l with
  | nil => intro i h; simp [colIdx?] at h
  | cons x xs ih =>
    intro i h
    by_cases hx : x = c
    · simp only [colIdx?, if_pos hx, Option.some.injEq] at h
      subst h
      simp [hx]
    · simp only [colIdx?, if_neg hx, Option.map_eq_some'] at h
      obtain ⟨k, hk, hki⟩ := h
      subst hki
      simpa using ih hk

theorem colIdx?_ne_of_ne {c d : String} {l : List String} {i j : Nat}
    (hcd : c ≠ d) (hi : colIdx? c l = some i) (hj : colIdx? d l = some j) :
    i ≠ j := by
  intro hij
  subst hij
  have h1 := colIdx?_getElem? hi
  have h2 := colIdx?_getElem? hj
  rw [h1] at h2
  exact hcd (Option.some.inj h2)

theorem cellAt_set_ne (r : List Cell) {i j : Nat} (v : Cell) (h : j ≠ i) :
    cellAt (r.set j v) i = cellAt r i := by
  simp [cellAt, List.getD_eq_getElem?_getD, List.getElem?_set_ne h]

theorem cellAt_set_coerce (r : List Cell) (i : Nat) :
    cellAt (r.set i (toNumericCell (cellAt r i))) i = toNumericCell (cellAt r i) := by
  rcases Nat.lt_or_ge i r.length with h | h
  · simp [cellAt, List.getD_eq_getElem?_getD, List.getElem?_set_self h]
  · rw [List.set_eq_of_length_le h]
    have hnan : cellAt r i = Cell.nan := by
      simp [cellAt, List.getD_eq_getElem?_getD, List.getElem?_eq_none h]
    rw [hnan]
    rfl

/-! ### The coercion-and-filter pipeline, explicitly -/

/-- All the structural facts about one run of the pair-analysis pipeline on
a dataframe that has both paired columns: the mutated frame `df2` (also the
caller-visible state of the dataframe object after `plot_ppg_vs_pass_tds`
returns or raises), its relation to the original, and the `dropna` frame. -/
theorem pipeline_facts (df : DataFrame) {i j : Nat}
    (hi : colIdx? "Points Per Game" df.cols = some i)
    (hj : colIdx? "Pass Touchdowns" df.cols = some j) :
    ∃ df2 plotDf : DataFrame,
      coerceAndClean df = .ok (df2, plotDf) ∧
      (plot_ppg_vs_pass_tds df).dfAfter = df2 ∧
      (plot_ppg_vs_pass_tds df).result = .error (.nameError "buf") ∧
      df2.cols = df.cols ∧
      df2.rows.length = df.rows.length ∧
      df2.colVals "Points Per Game" =
        (df.colVals "Points Per Game").map toNumericCell ∧
      df2.colVals "Pass Touchdowns" =
        (df.colVals "Pass Touchdowns").map toNumericCell ∧
      (∀ c, c ≠ "Points Per Game" → c ≠ "Pass Touchdowns" →
        df2.colVals c = df.colVals c) ∧
      plotDf.cols = df2.cols ∧
      plotDf.rows = df2.rows.filter (fun r =>
        rowHasValue df2 r "Points Per Game" &&
          rowHasValue df2 r "Pass Touchdowns") := by
  have hij : i ≠ j := colIdx?_ne_of_ne (by decide) hi hj
  have hji : j ≠ i := Ne.symm hij
  set df1 : DataFrame :=
    ⟨df.cols, df.rows.map (fun r => r.set i (toNumericCell (cellAt r i)))⟩ with hdf1
  set df2 : DataFrame :=
    ⟨df.cols, df1.rows.map (fun r => r.set j (toNumericCell (cellAt r j)))⟩ with hdf2
  have hc1 : coerceNumericColumn df "Points Per Game" = .ok df1 := by
    simp [coerceNumericColumn, DataFrame.colIdx, hi, hdf1]
  have hc2 : coerceNumericColumn df1 "Pass Touchdowns" = .ok df2 := by
    simp [coerceNumericColumn, DataFrame.colIdx, hj, hdf1, hdf2]
  set plotDf : DataFrame :=
    ⟨df2.cols, df2.rows.filter (fun r =>
      (["Points Per Game", "Pass Touchdowns"] : List String).all
        (fun c => rowHasValue df2 r c))⟩ with hplot
  have hdrop : dropnaSubset df2 ["Points Per Game", "Pass Touchdowns"] = .ok plotDf := by
    have hcond : (["Points Per Game", "Pass Touchdowns"] : List String).all
        (fun c => (df2.colIdx c).isSome) = true := by
      simp [DataFrame.colIdx, hdf2, hdf1, hi, hj]
    simp [dropnaSubset, hcond, hplot]
  have hvals1 : df2.colVals "Points Per Game" =
      (df.colVals "Points Per Game").map toNumericCell := by
    simp only [DataFrame.colVals, DataFrame.colIdx, hdf2, hdf1, hi]
    simp only [List.map_map]
    apply List.map_congr_left
    intro r _
    simp only [Function.comp_apply]
    rw [cellAt_set_ne _ _ hji]
    exact cellAt_set_coerce r i
  have hvals2 : df2.colVals "Pass Touchdowns" =
      (df.colVals "Pass Touchdowns").map toNumericCell := by
    simp only [DataFrame.colVals, DataFrame.colIdx, hdf2, hdf1, hj]
    simp only [List.map_map]
    apply List.map_congr_left
    intro r _
    simp only [Function.comp_apply]
    rw [cellAt_set_coerce _ j, cellAt_set_ne _ _ hij]
  have hother : ∀ c, c ≠ "Points Per Game" → c ≠ "Pass Touchdowns" →
      df2.colVals c = df.colVals c := by
    intro c hcp hct
    cases hk : colIdx? c df.cols with
    | none => simp [DataFrame.colVals, DataFrame.colIdx, hdf2, hdf1, hk]
    | some k =>
      have hki : k ≠ i := colIdx?_ne_of_ne hcp hk hi
      have hkj : k ≠ j := colIdx?_ne_of_ne hct hk hj
      simp only [DataFrame.colVals, DataFrame.colIdx, hdf2, hdf1, hk]
      simp only [List.map_map]
      apply List.map_congr_left
      intro r _
      simp only [Function.comp_apply]
      rw [cellAt_set_ne _ _ (Ne.symm hkj), cellAt_set_ne _ _ (Ne.symm hki)]
  refine ⟨df2, plotDf, ?_, ?_, ?_, ?_, ?_, hvals1, hvals2, hother, ?_, ?_⟩
  · unfold coerceAndClean
    rw [hc1]
    show (coerceNumericColumn df1 "Pass Touchdowns").bind _ = _
    rw [hc2]
    show (dropnaSubset df2 ["Points Per Game", "Pass Touchdowns"]).bind _ = _
    rw [hdrop]
    rfl
  · simp only [plot_ppg_vs_pass_tds, hc1, hc2, hdrop]
  · simp only [plot_ppg_vs_pass_tds, hc1, hc2, hdrop]
  · rw [hdf2]
  · simp [hdf2, hdf1]
  · rw [hplot, hdf2]
  · rw [hplot]
    show df2.rows.filter (fun r =>
        (["Points Per Game", "Pass Touchdowns"] : List String).all
          (fun c => rowHasValue df2 r c)) = _
    apply List.filter_congr
    intro r _
    simp [List.all_cons]
/-- C5: when both paired columns exist, the pipeline never errors; each
value of the two columns is coerced cell-wise by `toNumericCell` (an
unparseable string becomes the absent value `nan`, not an error), and the
cleaned frame keeps exactly the rows whose two paired values are both
present, by a filter over the coerced rows — hence preserving the relative
order of the remaining rows (a sublist). -/
theorem coercion_and_filter_spec (df : DataFrame)
    (h1 : "Points Per Game" ∈ df.cols) (h2 : "Pass Touchdowns" ∈ df.cols) :
    (∀ s, parseQ? s = none → toNumericCell (.str s) = .nan) ∧
    ∃ df2 plotDf : DataFrame,
      coerceAndClean df = .ok (df2, plotDf) ∧
      df2.colVals "Points Per Game" =
        (df.colVals "Points Per Game").map toNumericCell ∧
      df2.colVals "Pass Touchdowns" =
        (df.colVals "Pass Touchdowns").map toNumericCell ∧
      df2.rows.length = df.rows.length ∧
      plotDf.rows = df2.rows.filter (fun r =>
        rowHasValue df2 r "Points Per Game" &&
          rowHasValue df2 r "Pass Touchdowns") ∧
      plotDf.rows.Sublist df2.rows := by
  obtain ⟨i, hi⟩ := colIdx?_of_mem h1
  obtain ⟨j, hj⟩ := colIdx?_of_mem h2
  obtain ⟨df2, plotDf, hcc, _, _, _, hlen, hv1, hv2, _, _, hfilter⟩ :=
    pipeline_facts df hi hj
  refine ⟨?_, df2, plotDf, hcc, hv1, hv2, hlen, hfilter, ?_⟩
  · intro s hs
    simp [toNumericCell, hs]
  · rw [hfilter]
    exact List.filter_sublist _

/-- C5 witness: Scenario E — five rows, one with "Pass Touchdowns" = "N/A";
the pipeline succeeds and the cleaned frame holds exactly the other 4 rows. -/
theorem coercion_and_filter_spec_witness :
    ("Points Per Game" ∈ (⟨["Team", "Points Per Game", "Pass Touchdowns"],
        [[.str "A", .num 30, .num 20], [.str "B", .num 25, .num 15],
         [.str "C", .num 22, .str "N/A"], [.str "D", .num 28, .num 18],
         [.str "E", .num 20, .num 10]]⟩ : DataFrame).cols) ∧
    ("Pass Touchdowns" ∈ (⟨["Team", "Points Per Game", "Pass Touchdowns"],
        [[.str "A", .num 30, .num 20], [.str "B", .num 25, .num 15],
         [.str "C", .num 22, .str "N/A"], [.str "D", .num 28, .num 18],
         [.str "E", .num 20, .num 10]]⟩ : DataFrame).cols) ∧
    ((∀ s, parseQ? s = none → toNumericCell (.str s) = .nan) ∧
     ∃ df2 plotDf : DataFrame,
       coerceAndClean ⟨["Team", "Points Per Game", "Pass Touchdowns"],
          [[.str "A", .num 30, .num 20], [.str "B", .num 25, .num 15],
           [.str "C", .num 22, .str "N/A"], [.str "D", .num 28, .num 18],
           [.str "E", .num 20, .num 10]]⟩ = .ok (df2, plotDf) ∧
       df2.colVals "Points Per Game" =
         ((⟨["Team", "Points Per Game", "Pass Touchdowns"],
            [[.str "A", .num 30, .num 20], [.str "B", .num 25, .num 15],
             [.str "C", .num 22, .str "N/A"], [.str "D", .num 28, .num 18],
             [.str "E", .num 20, .num 10]]⟩ : DataFrame).colVals
            "Points Per Game").map toNumericCell ∧
       df2.colVals "Pass Touchdowns" =
         ((⟨["Team", "Points Per Game", "Pass Touchdowns"],
            [[.str "A", .num 30, .num 20], [.str "B", .num 25, .num 15],
             [.str "C", .num 22, .str "N/A"], [.str "D", .num 28, .num 18],
             [.str "E", .num 20, .num 10]]⟩ : DataFrame).colVals
            "Pass Touchdowns").map toNumericCell ∧
       df2.rows.length =
         (⟨["Team", "Points Per Game", "Pass Touchdowns"],
            [[.str "A", .num 30, .num 20], [.str "B", .num 25, .num 15],
             [.str "C", .num 22, .str "N/A"], [.str "D", .num 28, .num 18],
             [.str "E", .num 20, .num 10]]⟩ : DataFrame).rows.length ∧
       plotDf.rows = df2.rows.filter (fun r =>
         rowHasValue df2 r "Points Per Game" &&
           rowHasValue df2 r "Pass Touchdowns") ∧
       plotDf.rows.Sublist df2.rows) ∧
    ((coerceAndClean ⟨["Team", "Points Per Game", "Pass Touchdowns"],
        [[.str "A", .num 30, .num 20], [.str "B", .num 25, .num 15],
         [.str "C", .num 22, .str "N/A"], [.str "D", .num 28, .num 18],
         [.str "E", .num 20, .num 10]]⟩).toOption.map
      (fun p => p.2.rows.length) = some 4) :=
  ⟨by decide, by decide,
   coercion_and_filter_spec
     ⟨["Team", "Points Per Game", "Pass Touchdowns"],
       [[.str "A", .num 30, .num 20], [.str "B", .num 25, .num 15],
        [.str "C", .num 22, .str "N/A"], [.str "D", .num 28, .num 18],
        [.str "E", .num 20, .num 10]]⟩ (by decide) (by decide),
   by with_unfolding_all rfl⟩

/-- C7 counterexample: the pair analysis mutates the dataframe object it is
handed.  After `plot_ppg_vs_pass_tds` runs on a frame holding an
unparseable "Pass Touchdowns" entry, the caller-visible frame differs from
the original: the entry was coerced to the absent value in place, so a
cached Dataset passed to the analysis would not stay unchanged. -/
theorem cached_frame_mutation_counterexample :
    (plot_ppg_vs_pass_tds ⟨["Points Per Game", "Pass Touchdowns"],
        [[.num 30, .str "N/A"], [.num 25, .num 15]]⟩).dfAfter ≠
      ⟨["Points Per Game", "Pass Touchdowns"],
        [[.num 30, .str "N/A"], [.num 25, .num 15]]⟩ := by
  with_unfolding_all decide

/-- C7 (amended): the per-request numeric coercion does NOT operate on a
transient copy: it writes the coerced values back into the two paired
columns of the dataframe object it received, in place.  The mutation is
confined to exactly those two columns — the column list, the row count and
every other column's values are unchanged; only the row-filtering step
(`dropna`) produces a fresh frame. -/
theorem coercion_mutates_cached_frame_in_place (df : DataFrame)
    (h1 : "Points Per Game" ∈ df.cols) (h2 : "Pass Touchdowns" ∈ df.cols) :
    ((plot_ppg_vs_pass_tds df).dfAfter).cols = df.cols ∧
    ((plot_ppg_vs_pass_tds df).dfAfter).rows.length = df.rows.length ∧
    ((plot_ppg_vs_pass_tds df).dfAfter).colVals "Points Per Game" =
      (df.colVals "Points Per Game").map toNumericCell ∧
    ((plot_ppg_vs_pass_tds df).dfAfter).colVals "Pass Touchdowns" =
      (df.colVals "Pass Touchdowns").map toNumericCell ∧
    (∀ c, c ≠ "Points Per Game" → c ≠ "Pass Touchdowns" →
      ((plot_ppg_vs_pass_tds df).dfAfter).colVals c = df.colVals c) := by
  obtain ⟨i, hi⟩ := colIdx?_of_mem h1
  obtain ⟨j, hj⟩ := colIdx?_of_mem h2
  obtain ⟨df2, plotDf, _, hafter, _, hcols, hlen, hv1, hv2, hother, _, _⟩ :=
    pipeline_facts df hi hj
  rw [hafter]
  exact ⟨hcols, hlen, hv1, hv2, hother⟩

/-- C7 (amended) witness: a concrete two-column frame with one unparseable
entry satisfies the hypotheses; the call leaves columns and row count
intact while coercing the paired columns in place. -/
theorem coercion_mutates_cached_frame_in_place_witness :
    ("Points Per Game" ∈ (⟨["Points Per Game", "Pass Touchdowns"],
        [[.num 30, .str "N/A"], [.num 25, .num 15]]⟩ : DataFrame).cols) ∧
    ("Pass Touchdowns" ∈ (⟨["Points Per Game", "Pass Touchdowns"],
        [[.num 30, .str "N/A"], [.num 25, .num 15]]⟩ : DataFrame).cols) ∧
    ((plot_ppg_vs_pass_tds ⟨["Points Per Game", "Pass Touchdowns"],
        [[.num 30, .str "N/A"], [.num 25, .num 15]]⟩).dfAfter).cols =
      (⟨["Points Per Game", "Pass Touchdowns"],
        [[.num 30, .str "N/A"], [.num 25, .num 15]]⟩ : DataFrame).cols :=
  ⟨by decide, by decide,
   (coercion_mutates_cached_frame_in_place
     ⟨["Points Per Game", "Pass Touchdowns"],
       [[.num 30, .str "N/A"], [.num 25, .num 15]]⟩
     (by decide) (by decide)).1⟩

end CfbApp
